import Mathlib

/-!
Verification of the announcements router of a school management API
(`src/backend/routers/announcements.py`).

The router exposes CRUD endpoints over a MongoDB collection of announcement
documents plus a read-only teacher-identity collection.  We embed it
shallowly:

* A MongoDB announcement document becomes the structure `AnnDoc`; its
  `_id` (an `ObjectId`) is modelled by its 24-character lowercase hex string
  form, stored in the field `key` (so `str(_id)` is `key` itself).
* The announcements collection becomes a `List AnnDoc`; the teachers
  collection is consulted only through `find_one({"_id": username})`, so it
  becomes the list of existing usernames.  `insert_one` appends a document
  whose store-assigned key is passed in as `newKey`; `update_one` /
  `delete_one` touch the first matching document, as Mongo does.
* `datetime.fromisoformat` is an external library function; it is passed in
  as an abstract parameter `parse : String → Option PyDatetime`, where
  `PyDatetime` records a wall-clock value and an optional UTC offset
  (Python's naive vs aware distinction).  Comparison of a naive and an
  aware datetime raises `TypeError` in Python, which the router does not
  catch; `pyGE` therefore returns `Option Bool`.
* `datetime.now(timezone.utc).isoformat()` is environmental; it is passed
  in as a string parameter `now`.  MongoDB's `$gt` on strings and Python's
  `>` on strings are both lexicographic; both are modelled by `<` on
  `String`.
* `raise HTTPException(status_code, detail)` becomes `Except.error` of an
  `ApiError`; each handler returns the pair of its HTTP-level outcome and
  the announcements collection after the request.
-/

namespace Announcements

/-- A value produced by Python's `datetime.fromisoformat`: a wall-clock
reading together with its UTC offset when the parsed string carried one
(an *aware* datetime) or `none` when it did not (a *naive* datetime). -/
structure PyDatetime where
  wall : Int
  offset : Option Int
deriving DecidableEq, Repr

/-- Python's `a >= b` on two datetimes.  Two naive datetimes compare by
wall-clock value, two aware ones by the instant they denote; comparing a
naive with an aware datetime raises `TypeError`, modelled as `none`. -/
def pyGE (a b : PyDatetime) : Option Bool :=
  match a.offset, b.offset with
  | none, none => some (decide (b.wall ≤ a.wall))
  | some x, some y => some (decide (b.wall - y ≤ a.wall - x))
  | none, some _ => none
  | some _, none => none

/-- A persisted announcement document.  `key` models the store-assigned
`_id` as its 24-character lowercase hex string form. -/
structure AnnDoc where
  key : String
  message : String
  start_date : Option String
  expiration_date : String
  created_by : String
  created_at : String
deriving DecidableEq, Repr

/-- The JSON shape returned to clients: `_id` replaced by the string field
`id`, all other fields passed through. -/
structure AnnOut where
  id : String
  message : String
  start_date : Option String
  expiration_date : String
  created_by : String
  created_at : String
deriving DecidableEq, Repr

/-- Request body for create and update (`AnnouncementCreate` in the
source; the pydantic length bound on `message` is enforced by the
framework before the handlers run and is not used by any claim). -/
structure AnnouncementCreate where
  message : String
  start_date : Option String
  expiration_date : String
deriving DecidableEq, Repr

/-- The `HTTPException`s raised by the router, plus `uncomparableDates`
for the uncaught `TypeError` of a naive/aware datetime comparison. -/
inductive ApiError where
  | unauthorized
  | invalidExpirationFormat
  | invalidStartFormat
  | startNotBeforeExpiration
  | uncomparableDates
  | invalidId
  | notFound
deriving DecidableEq, Repr

/-- HTTP status code of each error.  `uncomparableDates` is an uncaught
exception, surfaced by the framework as a 500. -/
def httpStatus : ApiError → Nat
  | .unauthorized => 401
  | .invalidExpirationFormat => 400
  | .invalidStartFormat => 400
  | .startNotBeforeExpiration => 400
  | .uncomparableDates => 500
  | .invalidId => 400
  | .notFound => 404

/-- `_serialize_announcement`: replace the store key by a string field
`id` (the key is already its own string form), pass every other field
through unchanged. -/
def _serialize_announcement (d : AnnDoc) : AnnOut :=
  { id := d.key
    message := d.message
    start_date := d.start_date
    expiration_date := d.expiration_date
    created_by := d.created_by
    created_at := d.created_at }

/-- `_validate_teacher`: 401 unless a teacher record keyed by exactly this
username exists.  The teachers list is read, never returned modified. -/
def _validate_teacher (teachers : List String) (username : String) :
    Except ApiError Unit :=
  if username ∈ teachers then .ok () else .error .unauthorized

/-- `_validate_dates`: parse `expiration_date` (400 on failure); when
`start_date` is truthy (present and non-empty), parse it (400 on failure)
and reject `start >= exp` with a 400.  A `TypeError` from comparing a
naive with an aware datetime is not caught by the source. -/
def _validate_dates (parse : String → Option PyDatetime)
    (start_date : Option String) (expiration_date : String) :
    Except ApiError Unit :=
  match parse expiration_date with
  | none => .error .invalidExpirationFormat
  | some exp =>
    match start_date with
    | none => .ok ()
    | some s =>
      if s.isEmpty then .ok ()
      else
        match parse s with
        | none => .error .invalidStartFormat
        | some start =>
          match pyGE start exp with
          | none => .error .uncomparableDates
          | some true => .error .startNotBeforeExpiration
          | some false => .ok ()

/-- Sort key of `.sort("created_at", -1)`: descending `created_at`. -/
def createdDesc (a b : AnnDoc) : Prop :=
  b.created_at ≤ a.created_at

instance : DecidableRel createdDesc := fun a b =>
  inferInstanceAs (Decidable (b.created_at ≤ a.created_at))

instance : IsTotal AnnDoc createdDesc :=
  ⟨fun a b => le_total b.created_at a.created_at⟩

instance : IsTrans AnnDoc createdDesc :=
  ⟨fun _ _ _ h1 h2 => le_trans h2 h1⟩

/-- The Python condition `start and start > now` in the active-list loop:
a record is skipped when its `start_date` is truthy and string-greater
than `now`. -/
def startBlocks (start : Option String) (now : String) : Bool :=
  match start with
  | none => false
  | some s => !s.isEmpty && decide (now < s)

/-- `GET /announcements/`: all documents, newest first, serialized. -/
def list_announcements (store : List AnnDoc) : List AnnOut :=
  (List.insertionSort createdDesc store).map _serialize_announcement

/-- `GET /announcements/active`: Mongo-filter `expiration_date > now`,
sort by `created_at` descending, then drop records whose `start_date` is
truthy and `> now`, serializing the rest. -/
def list_active_announcements (store : List AnnDoc) (now : String) :
    List AnnOut :=
  let docs := List.insertionSort createdDesc
    (store.filter fun d => decide (now < d.expiration_date))
  (docs.filter fun d => !startBlocks d.start_date now).map
    _serialize_announcement

/-- `ObjectId(s)` from a string: succeeds exactly on 24 hex characters,
normalizing to lowercase (the canonical `str` form); anything else raises
`InvalidId`, modelled as `none`. -/
def isHexChar (c : Char) : Bool :=
  c.isDigit || ('a' ≤ c && c ≤ 'f') || ('A' ≤ c && c ≤ 'F')

/-- Conversion of a path identifier to a store key, `none` when the
identifier is not a well-formed `ObjectId` string.  Hex digits are
lowered character by character, matching the lowercase canonical form
`str(ObjectId(..))` produces. -/
def objectIdOfString (s : String) : Option String :=
  if s.length == 24 && s.data.all isHexChar then
    some ⟨s.data.map Char.toLower⟩
  else none

/-- `POST /announcements/`: validate the teacher, validate the dates,
then insert the new document (store-assigned key `newKey`, server clock
`now`) and return it serialized. -/
def create_announcement (teachers : List String) (store : List AnnDoc)
    (parse : String → Option PyDatetime) (body : AnnouncementCreate)
    (teacher_username : String) (now : String) (newKey : String) :
    Except ApiError AnnOut × List AnnDoc :=
  match _validate_teacher teachers teacher_username with
  | .error e => (.error e, store)
  | .ok _ =>
    match _validate_dates parse body.start_date body.expiration_date with
    | .error e => (.error e, store)
    | .ok _ =>
      let doc : AnnDoc :=
        { key := newKey
          message := body.message
          start_date := body.start_date
          expiration_date := body.expiration_date
          created_by := teacher_username
          created_at := now }
      (.ok (_serialize_announcement doc), store ++ [doc])

/-- Mongo's `update_one` with `$set`: rewrite the first matching
document, leave everything else in place. -/
def updateFirst (p : AnnDoc → Bool) (f : AnnDoc → AnnDoc) :
    List AnnDoc → List AnnDoc
  | [] => []
  | d :: ds => if p d then f d :: ds else d :: updateFirst p f ds

/-- `PUT /announcements/{id}`: validate teacher and dates, reject a
malformed identifier with a 400, a missing document with a 404, and
otherwise `$set` exactly `message`, `start_date` and `expiration_date`,
returning an acknowledgment message. -/
def update_announcement (teachers : List String) (store : List AnnDoc)
    (parse : String → Option PyDatetime) (announcement_id : String)
    (body : AnnouncementCreate) (teacher_username : String) :
    Except ApiError String × List AnnDoc :=
  match _validate_teacher teachers teacher_username with
  | .error e => (.error e, store)
  | .ok _ =>
    match _validate_dates parse body.start_date body.expiration_date with
    | .error e => (.error e, store)
    | .ok _ =>
      match objectIdOfString announcement_id with
      | none => (.error .invalidId, store)
      | some objId =>
        match store.find? (fun d => d.key == objId) with
        | none => (.error .notFound, store)
        | some _ =>
          (.ok "Announcement updated successfully",
           updateFirst (fun d => d.key == objId)
             (fun d =>
               { d with
                 message := body.message
                 start_date := body.start_date
                 expiration_date := body.expiration_date }) store)

/-- `DELETE /announcements/{id}`: validate the teacher, reject a
malformed identifier with a 400, run `delete_one` (remove the first
matching document), and report a 404 exactly when its `deleted_count`
is zero. -/
def delete_announcement (teachers : List String) (store : List AnnDoc)
    (announcement_id : String) (teacher_username : String) :
    Except ApiError String × List AnnDoc :=
  match _validate_teacher teachers teacher_username with
  | .error e => (.error e, store)
  | .ok _ =>
    match objectIdOfString announcement_id with
    | none => (.error .invalidId, store)
    | some objId =>
      let remaining := store.eraseP (fun d => d.key == objId)
      if store.any (fun d => d.key == objId) then
        (.ok "Announcement deleted successfully", remaining)
      else
        (.error .notFound, remaining)

/-- A concrete stand-in for `datetime.fromisoformat`, used to instantiate
the abstract parser parameter on concrete inputs: `"a"` and `"b"` parse
as naive datetimes with equal wall-clock value, `"c"` as a later naive
datetime, `"z"` as an aware datetime; everything else fails to parse. -/
def demoParse : String → Option PyDatetime := fun s =>
  if s = "a" then some ⟨0, none⟩
  else if s = "b" then some ⟨0, none⟩
  else if s = "c" then some ⟨1, none⟩
  else if s = "z" then some ⟨0, some 60⟩
  else none

/-! ### Helper lemmas -/

/-- No list is lexicographically smaller than the empty list. -/
theorem not_list_lt_nil {α : Type} [LT α] (l : List α) :
    ¬ l < ([] : List α) := by
  intro h
  cases h

/-- No string is lexicographically smaller than the empty string. -/
theorem not_string_lt_empty (s : String) : ¬ s < "" := by
  rw [String.lt_iff_toList_lt]
  exact not_list_lt_nil s.toList

/-- An empty `start_date` never blocks a record from the active list. -/
theorem startBlocks_some_empty (now : String) :
    startBlocks (some "") now = false := by
  simp [startBlocks]

/-- The per-record condition of the active-list loop agrees with the
plain condition "unexpired, and started or no start set". -/
theorem keep_eq_claim (now : String) (d : AnnDoc) :
    (!startBlocks d.start_date now && decide (now < d.expiration_date)) =
      (decide (now < d.expiration_date) &&
        match d.start_date with
        | none => true
        | some s => !decide (now < s)) := by
  cases hsd : d.start_date with
  | none => simp [startBlocks, Bool.and_comm]
  | some s =>
    by_cases hs : s.isEmpty
    · have hse : s = "" := (String.isEmpty_iff s).mp hs
      subst hse
      simp [startBlocks, decide_eq_false (not_string_lt_empty now),
        decide_eq_false (not_list_lt_nil now.data), Bool.and_comm]
    · simp [startBlocks, hs, Bool.and_comm]

/-- Membership in the active list. -/
theorem mem_list_active {store : List AnnDoc} {now : String} {r : AnnOut} :
    r ∈ list_active_announcements store now ↔
      ∃ d, d ∈ store ∧
        (now < d.expiration_date ∧ startBlocks d.start_date now = false) ∧
        _serialize_announcement d = r := by
  simp [list_active_announcements, List.mem_filter, Bool.not_eq_true',
    and_assoc]

/-! ### C1: the active list -/

/-- C1: for every store state and every server clock reading `now`
(a UTC ISO-8601 string), the list-active operation returns exactly the
serializations of the records whose `expiration_date` is string-greater
than `now` and whose `start_date` is either absent or not string-greater
than `now` (so every excluded record fails one of the two conditions),
and the returned list is ordered by `created_at` descending. -/
theorem c1_list_active_exact_and_ordered (store : List AnnDoc) (now : String) :
    (list_active_announcements store now).Perm
        ((store.filter fun d =>
            decide (now < d.expiration_date) &&
              match d.start_date with
              | none => true
              | some s => !decide (now < s)).map _serialize_announcement) ∧
      (list_active_announcements store now).Pairwise
        (fun a b => b.created_at ≤ a.created_at) := by
  constructor
  · show ((List.insertionSort createdDesc
        (store.filter fun d => decide (now < d.expiration_date))).filter
          (fun d => !startBlocks d.start_date now)).map _serialize_announcement
      |>.Perm _
    have h1 : (List.insertionSort createdDesc
        (store.filter fun d => decide (now < d.expiration_date))).Perm
        (store.filter fun d => decide (now < d.expiration_date)) :=
      List.perm_insertionSort _ _
    refine ((h1.filter _).map _serialize_announcement).trans ?_
    rw [List.filter_filter, List.filter_congr (fun d _ => keep_eq_claim now d)]
  · show (((List.insertionSort createdDesc
        (store.filter fun d => decide (now < d.expiration_date))).filter
          (fun d => !startBlocks d.start_date now)).map
        _serialize_announcement).Pairwise _
    have hs : List.Sorted createdDesc (List.insertionSort createdDesc
        (store.filter fun d => decide (now < d.expiration_date))) :=
      List.sorted_insertionSort _ _
    have hf : List.Pairwise createdDesc ((List.insertionSort createdDesc
        (store.filter fun d => decide (now < d.expiration_date))).filter
          (fun d => !startBlocks d.start_date now)) :=
      hs.filter _
    exact List.pairwise_map.mpr (hf.imp (fun h => h))

/-! ### Branch characterizations of the three write handlers -/

/-- The date validator never reports an authorization failure. -/
theorem validate_dates_ne_unauthorized (parse : String → Option PyDatetime)
    (sd : Option String) (ed : String) :
    _validate_dates parse sd ed ≠ .error .unauthorized := by
  unfold _validate_dates
  repeat' split
  all_goals simp

/-- The date validator never reports an identifier failure. -/
theorem validate_dates_ne_invalidId (parse : String → Option PyDatetime)
    (sd : Option String) (ed : String) :
    _validate_dates parse sd ed ≠ .error .invalidId := by
  unfold _validate_dates
  repeat' split
  all_goals simp

/-- The date validator never reports a missing record. -/
theorem validate_dates_ne_notFound (parse : String → Option PyDatetime)
    (sd : Option String) (ed : String) :
    _validate_dates parse sd ed ≠ .error .notFound := by
  unfold _validate_dates
  repeat' split
  all_goals simp

/-- Create with an unknown username stops at the identity check. -/
theorem create_eq_of_not_teacher {teachers : List String} {u : String}
    (store : List AnnDoc) (parse : String → Option PyDatetime)
    (body : AnnouncementCreate) (now newKey : String) (h : u ∉ teachers) :
    create_announcement teachers store parse body u now newKey =
      (.error .unauthorized, store) := by
  simp [create_announcement, _validate_teacher, h]

/-- Create with a known username propagates a date-validation error. -/
theorem create_eq_of_validate_error {teachers : List String} {u : String}
    {parse : String → Option PyDatetime} {body : AnnouncementCreate}
    {err : ApiError} (store : List AnnDoc) (now newKey : String)
    (hu : u ∈ teachers)
    (hv : _validate_dates parse body.start_date body.expiration_date =
      .error err) :
    create_announcement teachers store parse body u now newKey =
      (.error err, store) := by
  simp [create_announcement, _validate_teacher, hu, hv]

/-- Create with a known username and valid dates inserts and echoes the
new document. -/
theorem create_eq_of_ok {teachers : List String} {u : String}
    {parse : String → Option PyDatetime} {body : AnnouncementCreate}
    (store : List AnnDoc) (now newKey : String) (hu : u ∈ teachers)
    (hv : _validate_dates parse body.start_date body.expiration_date =
      .ok ()) :
    create_announcement teachers store parse body u now newKey =
      (.ok (_serialize_announcement
          ⟨newKey, body.message, body.start_date, body.expiration_date,
            u, now⟩),
        store ++ [⟨newKey, body.message, body.start_date,
          body.expiration_date, u, now⟩]) := by
  simp [create_announcement, _validate_teacher, hu, hv]

/-- Update with an unknown username stops at the identity check. -/
theorem update_eq_of_not_teacher {teachers : List String} {u : String}
    (store : List AnnDoc) (parse : String → Option PyDatetime)
    (aid : String) (body : AnnouncementCreate) (h : u ∉ teachers) :
    update_announcement teachers store parse aid body u =
      (.error .unauthorized, store) := by
  simp [update_announcement, _validate_teacher, h]

/-- Update with a known username propagates a date-validation error. -/
theorem update_eq_of_validate_error {teachers : List String} {u : String}
    {parse : String → Option PyDatetime} {body : AnnouncementCreate}
    {err : ApiError} (store : List AnnDoc) (aid : String)
    (hu : u ∈ teachers)
    (hv : _validate_dates parse body.start_date body.expiration_date =
      .error err) :
    update_announcement teachers store parse aid body u =
      (.error err, store) := by
  simp [update_announcement, _validate_teacher, hu, hv]

/-- Update with valid inputs but a malformed identifier yields a 400. -/
theorem update_eq_of_bad_id {teachers : List String} {u : String}
    {parse : String → Option PyDatetime} {body : AnnouncementCreate}
    {aid : String} (store : List AnnDoc) (hu : u ∈ teachers)
    (hv : _validate_dates parse body.start_date body.expiration_date =
      .ok ())
    (hid : objectIdOfString aid = none) :
    update_announcement teachers store parse aid body u =
      (.error .invalidId, store) := by
  simp [update_announcement, _validate_teacher, hu, hv, hid]

/-- Update with a well-formed identifier matching nothing yields a 404. -/
theorem update_eq_of_absent {teachers : List String} {u : String}
    {parse : String → Option PyDatetime} {body : AnnouncementCreate}
    {aid objId : String} (store : List AnnDoc) (hu : u ∈ teachers)
    (hv : _validate_dates parse body.start_date body.expiration_date =
      .ok ())
    (hid : objectIdOfString aid = some objId)
    (hfind : store.find? (fun d => d.key == objId) = none) :
    update_announcement teachers store parse aid body u =
      (.error .notFound, store) := by
  simp [update_announcement, _validate_teacher, hu, hv, hid, hfind]

/-- Update on an existing document rewrites the first match via
`updateFirst` and acknowledges. -/
theorem update_eq_of_found {teachers : List String} {u : String}
    {parse : String → Option PyDatetime} {body : AnnouncementCreate}
    {aid objId : String} {d : AnnDoc} (store : List AnnDoc)
    (hu : u ∈ teachers)
    (hv : _validate_dates parse body.start_date body.expiration_date =
      .ok ())
    (hid : objectIdOfString aid = some objId)
    (hfind : store.find? (fun d => d.key == objId) = some d) :
    update_announcement teachers store parse aid body u =
      (.ok "Announcement updated successfully",
        updateFirst (fun d => d.key == objId)
          (fun d =>
            { d with
              message := body.message
              start_date := body.start_date
              expiration_date := body.expiration_date }) store) := by
  simp [update_announcement, _validate_teacher, hu, hv, hid, hfind]

/-- Delete with an unknown username stops at the identity check. -/
theorem delete_eq_of_not_teacher {teachers : List String} {u : String}
    (store : List AnnDoc) (aid : String) (h : u ∉ teachers) :
    delete_announcement teachers store aid u =
      (.error .unauthorized, store) := by
  simp [delete_announcement, _validate_teacher, h]

/-- Delete with a malformed identifier yields a 400. -/
theorem delete_eq_of_bad_id {teachers : List String} {u : String}
    {aid : String} (store : List AnnDoc) (hu : u ∈ teachers)
    (hid : objectIdOfString aid = none) :
    delete_announcement teachers store aid u =
      (.error .invalidId, store) := by
  simp [delete_announcement, _validate_teacher, hu, hid]

/-- Delete whose `delete_one` removed nothing yields a 404 and leaves the
collection as it was. -/
theorem delete_eq_of_absent {teachers : List String} {u : String}
    {aid objId : String} (store : List AnnDoc) (hu : u ∈ teachers)
    (hid : objectIdOfString aid = some objId)
    (habs : ∀ d ∈ store, d.key ≠ objId) :
    delete_announcement teachers store aid u =
      (.error .notFound, store) := by
  have hany : store.any (fun d => d.key == objId) = false := by
    simp only [List.any_eq_false, beq_iff_eq]
    exact habs
  have herase : store.eraseP (fun d => d.key == objId) = store :=
    List.eraseP_of_forall_not (by simpa using habs)
  simp [delete_announcement, _validate_teacher, hu, hid, hany, herase]

/-- Delete whose `delete_one` removed a record acknowledges. -/
theorem delete_eq_of_found {teachers : List String} {u : String}
    {aid objId : String} {d : AnnDoc} (store : List AnnDoc)
    (hu : u ∈ teachers) (hid : objectIdOfString aid = some objId)
    (hd : d ∈ store) (hkey : d.key = objId) :
    delete_announcement teachers store aid u =
      (.ok "Announcement deleted successfully",
        store.eraseP (fun d => d.key == objId)) := by
  have hany : store.any (fun d => d.key == objId) = true := by
    simp only [List.any_eq_true, beq_iff_eq]
    exact ⟨d, hd, hkey⟩
  simp [delete_announcement, _validate_teacher, hu, hid, hany]

/-! ### C2, C3, C10: validation and authorization -/

/-- C2: whenever `start_date` is present and non-empty and both dates
parse, a start not strictly before the expiration (equal timestamps
included) is rejected with a 400 by the date validator, and hence by the
create and update operations once they pass the identity check. -/
theorem c2_start_order_rejected (parse : String → Option PyDatetime)
    (teachers : List String) (store : List AnnDoc)
    (msg s e u aid now newKey : String) (ds de : PyDatetime)
    (hs : s ≠ "") (hps : parse s = some ds) (hpe : parse e = some de)
    (hge : pyGE ds de = some true) (hu : u ∈ teachers) :
    _validate_dates parse (some s) e = .error .startNotBeforeExpiration ∧
      httpStatus .startNotBeforeExpiration = 400 ∧
      (create_announcement teachers store parse ⟨msg, some s, e⟩ u now
          newKey).fst = .error .startNotBeforeExpiration ∧
      (update_announcement teachers store parse aid ⟨msg, some s, e⟩
          u).fst = .error .startNotBeforeExpiration := by
  have hsE : s.isEmpty = false := by
    cases hh : s.isEmpty
    · rfl
    · exact absurd ((String.isEmpty_iff s).mp hh) hs
  have hval : _validate_dates parse (some s) e =
      .error .startNotBeforeExpiration := by
    simp [_validate_dates, hpe, hsE, hps, hge]
  refine ⟨hval, rfl, ?_, ?_⟩
  · rw [create_eq_of_validate_error store now newKey hu hval]
  · rw [update_eq_of_validate_error store aid hu hval]

/-- Witness for C2: equal parsed timestamps are rejected with a 400 on a
concrete request. -/
theorem c2_witness :
    ("a" ≠ "" ∧ demoParse "a" = some ⟨0, none⟩ ∧
        demoParse "b" = some ⟨0, none⟩ ∧
        pyGE ⟨0, none⟩ ⟨0, none⟩ = some true ∧ "t1" ∈ ["t1"]) ∧
      (_validate_dates demoParse (some "a") "b" =
          .error .startNotBeforeExpiration ∧
        httpStatus .startNotBeforeExpiration = 400 ∧
        (create_announcement ["t1"] [] demoParse ⟨"m", some "a", "b"⟩
            "t1" "t" "k").fst = .error .startNotBeforeExpiration ∧
        (update_announcement ["t1"] [] demoParse "x" ⟨"m", some "a", "b"⟩
            "t1").fst = .error .startNotBeforeExpiration) :=
  ⟨⟨by decide, by decide, by decide, by decide, by decide⟩,
    c2_start_order_rejected demoParse ["t1"] [] "m" "a" "b" "t1" "x" "t"
      "k" ⟨0, none⟩ ⟨0, none⟩ (by decide) (by decide) (by decide)
      (by decide) (by decide)⟩

/-- C3: each of create, update and delete fails with a 401 exactly when
no teacher record keyed by the caller-supplied username exists.  The
identity store is consulted read-only by construction: none of the three
handlers returns a modified teachers list. -/
theorem c3_unauthorized_iff_unknown_teacher (teachers : List String)
    (store : List AnnDoc) (parse : String → Option PyDatetime)
    (body : AnnouncementCreate) (u aid now newKey : String) :
    ((create_announcement teachers store parse body u now newKey).fst =
        .error .unauthorized ↔ u ∉ teachers) ∧
      ((update_announcement teachers store parse aid body u).fst =
        .error .unauthorized ↔ u ∉ teachers) ∧
      ((delete_announcement teachers store aid u).fst =
        .error .unauthorized ↔ u ∉ teachers) ∧
      httpStatus .unauthorized = 401 := by
  by_cases hu : u ∈ teachers
  · refine ⟨?_, ?_, ?_, rfl⟩
    · cases hv : _validate_dates parse body.start_date
          body.expiration_date with
      | error e =>
        rw [create_eq_of_validate_error store now newKey hu hv]
        simp only [hu, not_true_eq_false, iff_false]
        intro h
        have he : e = ApiError.unauthorized := by simpa using h
        exact validate_dates_ne_unauthorized parse _ _ (he ▸ hv)
      | ok v =>
        rw [create_eq_of_ok store now newKey hu hv]
        simp [hu]
    · cases hv : _validate_dates parse body.start_date
          body.expiration_date with
      | error e =>
        rw [update_eq_of_validate_error store aid hu hv]
        simp only [hu, not_true_eq_false, iff_false]
        intro h
        have he : e = ApiError.unauthorized := by simpa using h
        exact validate_dates_ne_unauthorized parse _ _ (he ▸ hv)
      | ok v =>
        cases hid : objectIdOfString aid with
        | none =>
          rw [update_eq_of_bad_id store hu hv hid]
          simp [hu]
        | some objId =>
          cases hfind : store.find? (fun d => d.key == objId) with
          | none =>
            rw [update_eq_of_absent store hu hv hid hfind]
            simp [hu]
          | some d =>
            rw [update_eq_of_found store hu hv hid hfind]
            simp [hu]
    · cases hid : objectIdOfString aid with
      | none =>
        rw [delete_eq_of_bad_id store hu hid]
        simp [hu]
      | some objId =>
        cases hany : store.any (fun d => d.key == objId) with
        | false =>
          simp [delete_announcement, _validate_teacher, hu, hid, hany]
        | true =>
          simp [delete_announcement, _validate_teacher, hu, hid, hany]
  · rw [create_eq_of_not_teacher store parse body now newKey hu,
      update_eq_of_not_teacher store parse aid body hu,
      delete_eq_of_not_teacher store aid hu]
    simp [hu, httpStatus]

/-- C10: the identity check comes first: an unknown username yields a
401 from every write handler, whatever the dates or the identifier look
like (both are universally quantified here, so in particular they may be
malformed or mis-ordered). -/
theorem c10_auth_checked_first (teachers : List String)
    (store : List AnnDoc) (parse : String → Option PyDatetime)
    (body : AnnouncementCreate) (u aid now newKey : String)
    (hu : u ∉ teachers) :
    (create_announcement teachers store parse body u now newKey).fst =
        .error .unauthorized ∧
      (update_announcement teachers store parse aid body u).fst =
        .error .unauthorized ∧
      (delete_announcement teachers store aid u).fst =
        .error .unauthorized ∧
      httpStatus .unauthorized = 401 := by
  rw [create_eq_of_not_teacher store parse body now newKey hu,
    update_eq_of_not_teacher store parse aid body hu,
    delete_eq_of_not_teacher store aid hu]
  exact ⟨rfl, rfl, rfl, rfl⟩

/-- Witness for C10: an unknown teacher with an unparseable expiration
date and a malformed identifier still gets a 401. -/
theorem c10_witness :
    ("t2" ∉ ["t1"]) ∧
      ((create_announcement ["t1"] [] demoParse ⟨"m", some "bad", "bad"⟩
          "t2" "t" "k").fst = .error .unauthorized ∧
        (update_announcement ["t1"] [] demoParse "not-an-id"
          ⟨"m", some "bad", "bad"⟩ "t2").fst = .error .unauthorized ∧
        (delete_announcement ["t1"] [] "not-an-id" "t2").fst =
          .error .unauthorized ∧
        httpStatus .unauthorized = 401) :=
  ⟨by decide,
    c10_auth_checked_first ["t1"] [] demoParse ⟨"m", some "bad", "bad"⟩
      "t2" "not-an-id" "t" "k" (by decide)⟩

/-! ### C4, C5: identifier handling -/

/-- C4: an update or delete by a known teacher (with valid dates in the
update case) whose identifier is not a well-formed store key fails with
a 400 — never a 404, and never an uncaught store-layer exception: the
`InvalidId` raised by `ObjectId` is caught and mapped to the 400. -/
theorem c4_malformed_id_rejected (teachers : List String)
    (store : List AnnDoc) (parse : String → Option PyDatetime)
    (body : AnnouncementCreate) (u aid : String) (hu : u ∈ teachers)
    (hv : _validate_dates parse body.start_date body.expiration_date =
      .ok ())
    (hid : objectIdOfString aid = none) :
    (update_announcement teachers store parse aid body u).fst =
        .error .invalidId ∧
      (delete_announcement teachers store aid u).fst =
        .error .invalidId ∧
      httpStatus .invalidId = 400 ∧ httpStatus .invalidId ≠ 404 := by
  rw [update_eq_of_bad_id store hu hv hid,
    delete_eq_of_bad_id store hu hid]
  exact ⟨rfl, rfl, rfl, by decide⟩

/-- Witness for C4: a concrete malformed identifier draws a 400 from
both update and delete. -/
theorem c4_witness :
    ("t1" ∈ ["t1"] ∧
        _validate_dates demoParse none "b" = .ok () ∧
        objectIdOfString "not-an-id" = none) ∧
      ((update_announcement ["t1"] [] demoParse "not-an-id"
          ⟨"m", none, "b"⟩ "t1").fst = .error .invalidId ∧
        (delete_announcement ["t1"] [] "not-an-id" "t1").fst =
          .error .invalidId ∧
        httpStatus .invalidId = 400 ∧ httpStatus .invalidId ≠ 404) :=
  ⟨⟨by decide, rfl, by decide⟩,
    c4_malformed_id_rejected ["t1"] [] demoParse ⟨"m", none, "b"⟩ "t1"
      "not-an-id" (by decide) rfl (by decide)⟩

/-- C5: an update or delete by a known teacher (valid dates in the
update case) whose identifier is a well-formed key matching no stored
record fails with a 404; and delete reports the 404 exactly when no
record carries the key, i.e. exactly when zero records were removed. -/
theorem c5_absent_id_not_found (teachers : List String)
    (store : List AnnDoc) (parse : String → Option PyDatetime)
    (body : AnnouncementCreate) (u aid objId : String)
    (hu : u ∈ teachers)
    (hv : _validate_dates parse body.start_date body.expiration_date =
      .ok ())
    (hid : objectIdOfString aid = some objId)
    (habs : ∀ d ∈ store, d.key ≠ objId) :
    (update_announcement teachers store parse aid body u).fst =
        .error .notFound ∧
      (delete_announcement teachers store aid u).fst =
        .error .notFound ∧
      httpStatus .notFound = 404 ∧
      ∀ store2 : List AnnDoc,
        ((delete_announcement teachers store2 aid u).fst =
            .error .notFound ↔ ∀ d ∈ store2, d.key ≠ objId) := by
  have hfind : store.find? (fun d => d.key == objId) = none := by
    simp only [List.find?_eq_none, beq_iff_eq]
    exact habs
  refine ⟨?_, ?_, rfl, ?_⟩
  · rw [update_eq_of_absent store hu hv hid hfind]
  · rw [delete_eq_of_absent store hu hid habs]
  · intro store2
    constructor
    · intro hdel d hd hk
      rw [delete_eq_of_found store2 hu hid hd hk] at hdel
      simp at hdel
    · intro habs2
      rw [delete_eq_of_absent store2 hu hid habs2]

/-- Witness for C5: a well-formed identifier absent from a non-empty
concrete store draws a 404 from both update and delete. -/
theorem c5_witness :
    ("t1" ∈ ["t1"] ∧
        _validate_dates demoParse none "b" = .ok () ∧
        objectIdOfString "bbbbbbbbbbbbbbbbbbbbbbbb" =
          some "bbbbbbbbbbbbbbbbbbbbbbbb" ∧
        (∀ d ∈ [(⟨"aaaaaaaaaaaaaaaaaaaaaaaa", "m", none, "c", "t1",
            "t"⟩ : AnnDoc)], d.key ≠ "bbbbbbbbbbbbbbbbbbbbbbbb")) ∧
      ((update_announcement ["t1"]
          [⟨"aaaaaaaaaaaaaaaaaaaaaaaa", "m", none, "c", "t1", "t"⟩]
          demoParse "bbbbbbbbbbbbbbbbbbbbbbbb" ⟨"m", none, "b"⟩
          "t1").fst = .error .notFound ∧
        (delete_announcement ["t1"]
          [⟨"aaaaaaaaaaaaaaaaaaaaaaaa", "m", none, "c", "t1", "t"⟩]
          "bbbbbbbbbbbbbbbbbbbbbbbb" "t1").fst = .error .notFound ∧
        httpStatus .notFound = 404 ∧
        ∀ store2 : List AnnDoc,
          ((delete_announcement ["t1"] store2 "bbbbbbbbbbbbbbbbbbbbbbbb"
              "t1").fst = .error .notFound ↔
            ∀ d ∈ store2, d.key ≠ "bbbbbbbbbbbbbbbbbbbbbbbb")) :=
  ⟨⟨by decide, rfl, by decide, by decide⟩,
    c5_absent_id_not_found ["t1"]
      [⟨"aaaaaaaaaaaaaaaaaaaaaaaa", "m", none, "c", "t1", "t"⟩]
      demoParse ⟨"m", none, "b"⟩ "t1" "bbbbbbbbbbbbbbbbbbbbbbbb"
      "bbbbbbbbbbbbbbbbbbbbbbbb" (by decide) rfl (by decide)
      (by decide)⟩

/-! ### C6, C7: the success paths of update and create -/

/-- Serialization only repackages fields, so it is injective. -/
theorem serialize_announcement_inj {d d' : AnnDoc}
    (h : _serialize_announcement d = _serialize_announcement d') :
    d = d' := by
  cases d
  cases d'
  simpa [_serialize_announcement, AnnOut.mk.injEq, AnnDoc.mk.injEq]
    using h

/-- `updateFirst` rewrites the first match — located at some index `i` —
and nothing else: the result is `set i` of the original list. -/
theorem updateFirst_eq_set (p : AnnDoc → Bool) (f : AnnDoc → AnnDoc) :
    ∀ (l : List AnnDoc) (d : AnnDoc), l.find? p = some d →
      ∃ i, ∃ hi : i < l.length, l.get ⟨i, hi⟩ = d ∧ p d = true ∧
        updateFirst p f l = l.set i (f d)
  | [], d, h => by simp at h
  | a :: l, d, h => by
    by_cases hp : p a
    · rw [List.find?_cons_of_pos l hp] at h
      have hd : a = d := Option.some.inj h
      subst hd
      exact ⟨0, Nat.succ_pos _, rfl, hp, by simp [updateFirst, hp]⟩
    · rw [List.find?_cons_of_neg l hp] at h
      obtain ⟨i, hi, hget, hpd, heq⟩ := updateFirst_eq_set p f l d h
      exact ⟨i + 1, Nat.succ_lt_succ hi, hget, hpd,
        by simp [updateFirst, hp, heq]⟩

/-- C6: a successful update returns the acknowledgment message, not the
record, and the new store is the old one with exactly one record — the
one whose key matches the identifier — rewritten: its `message`,
`start_date` and `expiration_date` are overwritten, its key,
`created_by` and `created_at` are unchanged, and every record at any
other position is untouched. -/
theorem c6_update_frame (teachers : List String)
    (store store2 : List AnnDoc) (parse : String → Option PyDatetime)
    (body : AnnouncementCreate) (u aid m : String)
    (h : update_announcement teachers store parse aid body u =
      (.ok m, store2)) :
    m = "Announcement updated successfully" ∧
      ∃ objId, objectIdOfString aid = some objId ∧
        ∃ i, ∃ hi : i < store.length, ∃ d2 : AnnDoc,
          (store.get ⟨i, hi⟩).key = objId ∧
          store2 = store.set i d2 ∧
          d2.key = (store.get ⟨i, hi⟩).key ∧
          d2.created_by = (store.get ⟨i, hi⟩).created_by ∧
          d2.created_at = (store.get ⟨i, hi⟩).created_at ∧
          d2.message = body.message ∧
          d2.start_date = body.start_date ∧
          d2.expiration_date = body.expiration_date ∧
          ∀ j, j ≠ i → store2[j]? = store[j]? := by
  by_cases hu : u ∈ teachers
  · cases hv : _validate_dates parse body.start_date
        body.expiration_date with
    | error e =>
      rw [update_eq_of_validate_error store aid hu hv] at h
      simp at h
    | ok v =>
      cases hid : objectIdOfString aid with
      | none =>
        rw [update_eq_of_bad_id store hu hv hid] at h
        simp at h
      | some objId =>
        cases hfind : store.find? (fun d => d.key == objId) with
        | none =>
          rw [update_eq_of_absent store hu hv hid hfind] at h
          simp at h
        | some d =>
          rw [update_eq_of_found store hu hv hid hfind] at h
          simp only [Prod.mk.injEq, Except.ok.injEq] at h
          obtain ⟨hm, hst⟩ := h
          obtain ⟨i, hi, hget, hpd, heq⟩ :=
            updateFirst_eq_set (fun d => d.key == objId)
              (fun d =>
                { d with
                  message := body.message
                  start_date := body.start_date
                  expiration_date := body.expiration_date }) store d hfind
          refine ⟨hm.symm, objId, rfl, i, hi,
            { d with
              message := body.message
              start_date := body.start_date
              expiration_date := body.expiration_date },
            ?_, ?_, ?_, ?_, ?_, rfl, rfl, rfl, ?_⟩
          · rw [hget]
            exact beq_iff_eq.mp hpd
          · rw [← hst, heq]
          · rw [hget]
          · rw [hget]
          · rw [hget]
          · intro j hj
            rw [← hst, heq]
            exact List.getElem?_set_ne (Ne.symm hj)
  · rw [update_eq_of_not_teacher store parse aid body hu] at h
    simp at h

/-- Witness for C6: a concrete successful update rewrites exactly the
matching record and acknowledges. -/
theorem c6_witness :
    (update_announcement ["t1"]
        [⟨"aaaaaaaaaaaaaaaaaaaaaaaa", "m", none, "c", "t1", "t"⟩]
        demoParse "aaaaaaaaaaaaaaaaaaaaaaaa" ⟨"m2", none, "b"⟩ "t1" =
      (.ok "Announcement updated successfully",
        [⟨"aaaaaaaaaaaaaaaaaaaaaaaa", "m2", none, "b", "t1", "t"⟩])) ∧
      ("Announcement updated successfully" =
          "Announcement updated successfully" ∧
        ∃ objId, objectIdOfString "aaaaaaaaaaaaaaaaaaaaaaaa" =
            some objId ∧
          ∃ i, ∃ hi : i <
              [(⟨"aaaaaaaaaaaaaaaaaaaaaaaa", "m", none, "c", "t1",
                "t"⟩ : AnnDoc)].length, ∃ d2 : AnnDoc,
            (([(⟨"aaaaaaaaaaaaaaaaaaaaaaaa", "m", none, "c", "t1",
                "t"⟩ : AnnDoc)]).get ⟨i, hi⟩).key = objId ∧
            [(⟨"aaaaaaaaaaaaaaaaaaaaaaaa", "m2", none, "b", "t1",
              "t"⟩ : AnnDoc)] =
              ([(⟨"aaaaaaaaaaaaaaaaaaaaaaaa", "m", none, "c", "t1",
                "t"⟩ : AnnDoc)]).set i d2 ∧
            d2.key = (([(⟨"aaaaaaaaaaaaaaaaaaaaaaaa", "m", none, "c",
                "t1", "t"⟩ : AnnDoc)]).get ⟨i, hi⟩).key ∧
            d2.created_by = (([(⟨"aaaaaaaaaaaaaaaaaaaaaaaa", "m", none,
                "c", "t1", "t"⟩ : AnnDoc)]).get ⟨i, hi⟩).created_by ∧
            d2.created_at = (([(⟨"aaaaaaaaaaaaaaaaaaaaaaaa", "m", none,
                "c", "t1", "t"⟩ : AnnDoc)]).get ⟨i, hi⟩).created_at ∧
            d2.message = "m2" ∧
            d2.start_date = none ∧
            d2.expiration_date = "b" ∧
            ∀ j, j ≠ i →
              ([(⟨"aaaaaaaaaaaaaaaaaaaaaaaa", "m2", none, "b", "t1",
                "t"⟩ : AnnDoc)])[j]? =
              ([(⟨"aaaaaaaaaaaaaaaaaaaaaaaa", "m", none, "c", "t1",
                "t"⟩ : AnnDoc)])[j]?) :=
  ⟨rfl,
    c6_update_frame ["t1"]
      [⟨"aaaaaaaaaaaaaaaaaaaaaaaa", "m", none, "c", "t1", "t"⟩]
      [⟨"aaaaaaaaaaaaaaaaaaaaaaaa", "m2", none, "b", "t1", "t"⟩]
      demoParse ⟨"m2", none, "b"⟩ "t1" "aaaaaaaaaaaaaaaaaaaaaaaa"
      "Announcement updated successfully" rfl⟩

/-- C7: a successful create returns the submitted message and dates
unchanged, `created_by` equal to the caller username, `created_at`
stamped from the server clock, and an `id` equal to the string form of
the store-assigned key; the same record (under its key) is appended to
the store, and the returned value is exactly its serialization. -/
theorem c7_create_success (teachers : List String) (store : List AnnDoc)
    (parse : String → Option PyDatetime) (msg ed u now newKey : String)
    (sd : Option String) (hu : u ∈ teachers)
    (hv : _validate_dates parse sd ed = .ok ()) :
    create_announcement teachers store parse ⟨msg, sd, ed⟩ u now newKey =
        (.ok (⟨newKey, msg, sd, ed, u, now⟩ : AnnOut),
          store ++ [(⟨newKey, msg, sd, ed, u, now⟩ : AnnDoc)]) ∧
      _serialize_announcement ⟨newKey, msg, sd, ed, u, now⟩ =
        (⟨newKey, msg, sd, ed, u, now⟩ : AnnOut) := by
  refine ⟨?_, rfl⟩
  rw [create_eq_of_ok store now newKey hu hv]
  rfl

/-- Witness for C7: a concrete successful create. -/
theorem c7_witness :
    ("t1" ∈ ["t1"] ∧ _validate_dates demoParse none "c" = .ok ()) ∧
      (create_announcement ["t1"] [] demoParse ⟨"hello", none, "c"⟩
          "t1" "t" "k" =
          (.ok (⟨"k", "hello", none, "c", "t1", "t"⟩ : AnnOut),
            [(⟨"k", "hello", none, "c", "t1", "t"⟩ : AnnDoc)]) ∧
        _serialize_announcement ⟨"k", "hello", none, "c", "t1", "t"⟩ =
          (⟨"k", "hello", none, "c", "t1", "t"⟩ : AnnOut)) :=
  ⟨⟨by decide, rfl⟩,
    c7_create_success ["t1"] [] demoParse "hello" "c" "t1" "t" "k" none
      (by decide) rfl⟩

/-! ### C8: failing requests do not change the store -/

/-- C8: whenever create, update or delete fails with any error, the
announcements store after the request is exactly the store before it —
nothing inserted, modified or removed.  For delete this is not purely
structural: `delete_one` runs before the 404 check, but removes nothing
precisely when the 404 is reported. -/
theorem c8_errors_leave_store_unchanged (teachers : List String)
    (store : List AnnDoc) (parse : String → Option PyDatetime)
    (body : AnnouncementCreate) (u aid now newKey : String) :
    (∀ e, (create_announcement teachers store parse body u now
          newKey).fst = .error e →
        (create_announcement teachers store parse body u now
          newKey).snd = store) ∧
      (∀ e, (update_announcement teachers store parse aid body u).fst =
          .error e →
        (update_announcement teachers store parse aid body u).snd =
          store) ∧
      (∀ e, (delete_announcement teachers store aid u).fst = .error e →
        (delete_announcement teachers store aid u).snd = store) := by
  by_cases hu : u ∈ teachers
  · refine ⟨?_, ?_, ?_⟩
    · intro e he
      cases hv : _validate_dates parse body.start_date
          body.expiration_date with
      | error e2 =>
        rw [create_eq_of_validate_error store now newKey hu hv]
      | ok v =>
        rw [create_eq_of_ok store now newKey hu hv] at he
        simp at he
    · intro e he
      cases hv : _validate_dates parse body.start_date
          body.expiration_date with
      | error e2 =>
        rw [update_eq_of_validate_error store aid hu hv]
      | ok v =>
        cases hid : objectIdOfString aid with
        | none => rw [update_eq_of_bad_id store hu hv hid]
        | some objId =>
          cases hfind : store.find? (fun d => d.key == objId) with
          | none => rw [update_eq_of_absent store hu hv hid hfind]
          | some d =>
            rw [update_eq_of_found store hu hv hid hfind] at he
            simp at he
    · intro e he
      cases hid : objectIdOfString aid with
      | none => rw [delete_eq_of_bad_id store hu hid]
      | some objId =>
        cases hany : store.any (fun d => d.key == objId) with
        | false =>
          have habs : ∀ d ∈ store, d.key ≠ objId := by
            simpa [List.any_eq_false] using hany
          rw [delete_eq_of_absent store hu hid habs]
        | true =>
          obtain ⟨d, hd, hk⟩ : ∃ d ∈ store, d.key = objId := by
            simpa [List.any_eq_true] using hany
          rw [delete_eq_of_found store hu hid hd hk] at he
          simp at he
  · refine ⟨fun e he => ?_, fun e he => ?_, fun e he => ?_⟩
    · rw [create_eq_of_not_teacher store parse body now newKey hu]
    · rw [update_eq_of_not_teacher store parse aid body hu]
    · rw [delete_eq_of_not_teacher store aid hu]

/-- Witness for C8: a concrete failing delete (404 on a non-empty
store) leaves the store unchanged. -/
theorem c8_witness :
    ((delete_announcement ["t1"]
        [⟨"aaaaaaaaaaaaaaaaaaaaaaaa", "m", none, "c", "t1", "t"⟩]
        "bbbbbbbbbbbbbbbbbbbbbbbb" "t1").fst = .error .notFound) ∧
      (delete_announcement ["t1"]
          [⟨"aaaaaaaaaaaaaaaaaaaaaaaa", "m", none, "c", "t1", "t"⟩]
          "bbbbbbbbbbbbbbbbbbbbbbbb" "t1").snd =
        [⟨"aaaaaaaaaaaaaaaaaaaaaaaa", "m", none, "c", "t1", "t"⟩] :=
  ⟨rfl,
    (c8_errors_leave_store_unchanged ["t1"]
        [⟨"aaaaaaaaaaaaaaaaaaaaaaaa", "m", none, "c", "t1", "t"⟩]
        demoParse ⟨"m", none, "b"⟩ "t1" "bbbbbbbbbbbbbbbbbbbbbbbb" "t"
        "k").2.2 .notFound rfl⟩

/-! ### C9: the empty-string start date -/

/-- C9: an empty-string `start_date` passes date validation with no
format or ordering check (the parser is arbitrary here and is never
asked to parse `""`; only the expiration date constrains the outcome),
is stored verbatim as the empty string by create, and the active list
treats such a record exactly like one with no start date: it is listed
iff it is in the store and unexpired. -/
theorem c9_empty_start_accepted (teachers : List String)
    (store store2 : List AnnDoc) (parse : String → Option PyDatetime)
    (msg ed u now now2 newKey : String) (d : AnnDoc) (de : PyDatetime)
    (hu : u ∈ teachers) (hpe : parse ed = some de)
    (hd : d.start_date = some "") :
    _validate_dates parse (some "") ed = .ok () ∧
      create_announcement teachers store parse ⟨msg, some "", ed⟩ u now
          newKey =
        (.ok (⟨newKey, msg, some "", ed, u, now⟩ : AnnOut),
          store ++ [(⟨newKey, msg, some "", ed, u, now⟩ : AnnDoc)]) ∧
      (_serialize_announcement d ∈ list_active_announcements store2 now2
        ↔ d ∈ store2 ∧ now2 < d.expiration_date) := by
  have hval : _validate_dates parse (some "") ed = .ok () := by
    unfold _validate_dates
    rw [hpe]
    rfl
  refine ⟨hval, ?_, ?_⟩
  · rw [create_eq_of_ok store now newKey hu hval]
    rfl
  · rw [mem_list_active]
    constructor
    · rintro ⟨d', hd', ⟨hexp, _⟩, hser⟩
      cases serialize_announcement_inj hser
      exact ⟨hd', hexp⟩
    · rintro ⟨hmem, hexp⟩
      refine ⟨d, hmem, ⟨hexp, ?_⟩, rfl⟩
      rw [hd]
      exact startBlocks_some_empty now2

/-- Witness for C9: a concrete create with an empty start date, and the
resulting record listed as active while unexpired. -/
theorem c9_witness :
    ("t1" ∈ ["t1"] ∧ demoParse "c" = some ⟨1, none⟩ ∧
        (⟨"k", "m", some "", "c", "t1", "t"⟩ : AnnDoc).start_date =
          some "") ∧
      (_validate_dates demoParse (some "") "c" = .ok () ∧
        create_announcement ["t1"] [] demoParse ⟨"m", some "", "c"⟩
            "t1" "t" "k" =
          (.ok (⟨"k", "m", some "", "c", "t1", "t"⟩ : AnnOut),
            [(⟨"k", "m", some "", "c", "t1", "t"⟩ : AnnDoc)]) ∧
        (_serialize_announcement ⟨"k", "m", some "", "c", "t1", "t"⟩ ∈
            list_active_announcements
              [⟨"k", "m", some "", "c", "t1", "t"⟩] "b" ↔
          (⟨"k", "m", some "", "c", "t1", "t"⟩ : AnnDoc) ∈
              [(⟨"k", "m", some "", "c", "t1", "t"⟩ : AnnDoc)] ∧
            "b" < (⟨"k", "m", some "", "c", "t1", "t"⟩ :
              AnnDoc).expiration_date)) :=
  ⟨⟨by decide, by decide, rfl⟩,
    c9_empty_start_accepted ["t1"] []
      [⟨"k", "m", some "", "c", "t1", "t"⟩] demoParse "m" "c" "t1" "t"
      "b" "k" ⟨"k", "m", some "", "c", "t1", "t"⟩ ⟨1, none⟩ (by decide)
      (by decide) rfl⟩

end Announcements
